import Mathlib

/-!
Verification of the h2spacex HTTP/2 connection core (`h2spacex/h2_connection.py`).

The development embeds the pure content of the source shallowly:
byte strings become `List Nat`, scapy frame objects become the `H2Frame`
structure, socket effects become explicit outcome parameters, and the
mutable connection object becomes explicit state passing.
-/

namespace H2SpaceX

/-- An HTTP/2 frame as manipulated by the source: a scapy `H2Frame` carrying a
stream id, a frame type (HEADERS / DATA), a flag set (scapy exposes it as a
mutable set of two-letter names such as ES = END_STREAM, EH = END_HEADERS) and
the payload bytes (`data`). Flags are modelled as a duplicate-free list. -/
structure H2Frame where
  stream_id : Nat
  ftype : String
  flags : List String
  data : List Nat
deriving Repr, DecidableEq

/-- DATA frames for the body chunks of a request; the end-of-stream marker
goes on the last frame only (part of the spec-modelled frame codec below). -/
def dataFramesOfChunks (sid : Nat) : List (List Nat) → List H2Frame
  | [] => []
  | [c] => [⟨sid, "DATA", ["ES"], c⟩]
  | c :: c2 :: rest => ⟨sid, "DATA", [], c⟩ :: dataFramesOfChunks sid (c2 :: rest)

/-- Modelled from the spec: the external frame codec helper
`h2_frames.create_headers_frame` (its module is not under src/).  Per the spec,
it builds the HEADERS frame of the request (end-of-headers marker set; the
method / authority / scheme / path / header block are abstracted into the
serialized header-block payload `hp`); when a body is present the codec appends
one or more DATA frames carrying the body chunks, with the end-of-stream marker
on the final frame only; with no body the HEADERS frame itself carries the
end-of-stream marker. -/
def create_headers_frame (sid : Nat) (hp : List Nat) (body : Option (List (List Nat))) :
    List H2Frame :=
  match body with
  | none => [⟨sid, "HEADERS", ["ES", "EH"], hp⟩]
  | some chunks => ⟨sid, "HEADERS", ["EH"], hp⟩ :: dataFramesOfChunks sid chunks

/-- In-place update of the last frame of a frame list, mirroring the source's
mutation of `request_frames.frames[-1]`. -/
def modifyLast (f : H2Frame → H2Frame) : List H2Frame → List H2Frame
  | [] => []
  | [fr] => [f fr]
  | fr :: fr2 :: rest => fr :: modifyLast f (fr2 :: rest)

/-- `request_frames.frames[-1].data`: payload of the last frame ([] on an empty
frame list, which the source never reaches). -/
def lastFrameData : List H2Frame → List Nat
  | [] => []
  | [fr] => fr.data
  | _ :: fr2 :: rest => lastFrameData (fr2 :: rest)

/-- Python slice `data[-1:]`: the final byte of a byte string as a singleton
slice ([] when the string is empty). -/
def lastByteSlice (d : List Nat) : List Nat := d.drop (d.length - 1)

/-- `H2Connection.create_single_packet_http2_request_frames` (source lines
290-349).  The request is first built by the frame codec exactly as for a
normal send; then, when a body is present, the last byte of the last frame's
payload is removed, the end-of-stream flag is removed from that frame, and a
new DATA frame on the same stream carrying only that byte and the
end-of-stream flag is produced; when the body is `None` only the flag is moved,
onto a new empty DATA frame.  (`data[:-1]` is `List.dropLast`; the source's
`flags.remove` is `List.erase` — the removed flag is always present on the
frame the source mutates, so the Python `KeyError` path is not reachable.) -/
def create_single_packet_http2_request_frames (sid : Nat) (hp : List Nat)
    (body : Option (List (List Nat))) : List H2Frame × H2Frame :=
  let request_frames := create_headers_frame sid hp body
  match body with
  | some _ =>
    let last_byte := lastByteSlice (lastFrameData request_frames)
    (modifyLast (fun fr => { fr with data := fr.data.dropLast, flags := fr.flags.erase "ES" })
        request_frames,
     ⟨sid, "DATA", ["ES"], last_byte⟩)
  | none =>
    (modifyLast (fun fr => { fr with flags := fr.flags.erase "ES" }) request_frames,
     ⟨sid, "DATA", ["ES"], []⟩)

/-- Concatenated payload of the DATA frames of a frame group (the body bytes it
carries on the wire). -/
def dataPayload (frames : List H2Frame) : List Nat :=
  ((frames.filter (fun fr => fr.ftype == "DATA")).map (fun fr => fr.data)).flatten

/-- `H2Connection.DEFAULT_SETTINGS` (source lines 25-50): the fixed ordered
settings table, each entry a name with an identifier and an optional value
(Python `None` becomes `Option.none`).  Python dicts preserve insertion order,
so a list of triples is a faithful embedding. -/
def DEFAULT_SETTINGS : List (String × Nat × Option Nat) :=
  [("SETTINGS_HEADER_TABLE_SIZE", 1, some 4096),
   ("SETTINGS_ENABLE_PUSH", 2, some 0),
   ("SETTINGS_MAX_CONCURRENT_STREAMS", 3, some 100),
   ("SETTINGS_INITIAL_WINDOW_SIZE", 4, some 65535),
   ("SETTINGS_MAX_FRAME_SIZE", 5, some 16384),
   ("SETTINGS_MAX_HEADER_LIST_SIZE", 6, none)]

/-- The `settings_list` built by `_send_client_initial_settings_frame` (source
lines 248-253): iterate the table in declaration order, skip entries whose
value is `None`, and collect `H2Setting(id=..., value=...)` pairs. -/
def client_settings_entries : List (Nat × Nat) :=
  DEFAULT_SETTINGS.filterMap fun e =>
    match e.2.2 with
    | none => none
    | some v => some (e.2.1, v)

/-- The argument of `generate_stream_ids`: Python is dynamically typed, so the
caller may pass an `int` or any other value (`nonInt`), and the source guards
with `isinstance(number_of_streams, int)`. -/
inductive PyArg where
  | int (n : Int)
  | nonInt
deriving Repr, DecidableEq

/-- Message of the `ValueError` raised on a non-positive or non-integer count. -/
def invalidCountMsg : String := "number_of_streams must be a positive integer"

/-- Message of the `ValueError` raised on a degenerate stream-id range. -/
def rangeProblemMsg : String :=
  "There is a problem with the stream_id range. Please check the number_of_streams value."

/-- Python `range(s, e, 2)` over naturals: the arithmetic progression from `s`
steping by 2 below `e`, with `(e - s + 1) / 2` elements. -/
def pyRangeStep2 (s e : Nat) : List Nat := List.range' s ((e - s + 1) / 2) 2

/-- `H2Connection.generate_stream_ids` (source lines 263-288), as a function of
the current `last_used_stream_id` and the (dynamically typed) count argument.
Returns the result of the call — `.ok` with the id list, or `.error` for a
raised `ValueError` / `IndexError` — paired with the value
`last_used_stream_id` holds afterwards (the source mutates it in place: the
even-id normalization happens before the range guard, the final assignment to
`stream_ids_list[-1]` only on success). -/
def generate_stream_ids (last_used : Nat) (arg : PyArg) :
    Except String (List Nat) × Nat :=
  match arg with
  | .nonInt => (.error invalidCountMsg, last_used)
  | .int n =>
    if n ≤ 0 then (.error invalidCountMsg, last_used)
    else
      let lu1 := if last_used % 2 == 0 then last_used + 1 else last_used
      let start_stream_id := lu1 + 2
      let end_stream_id := n.toNat * 2 + start_stream_id
      if end_stream_id ≤ start_stream_id then (.error rangeProblemMsg, lu1)
      else
        let stream_ids_list := pyRangeStep2 start_stream_id end_stream_id
        match stream_ids_list.getLast? with
        | none => (.error "IndexError: list index out of range", lu1)
        | some last => (.ok stream_ids_list, last)

/-- An item handed to `send_bytes`, identified by the frame(s) its bytes
serialize (the byte-level encoding is the external codec's business). -/
inductive SentItem where
  | preface
  | settingsFrame (entries : List (Nat × Nat))
  | pingFrame (ping_data : String)
  | goAwayFrame (err_code : Nat)
  | requestBytes
deriving Repr, DecidableEq

/-- The connection object (`H2Connection.__init__`, source lines 14-22): the
socket is abstracted to presence (`some ()`) or absence (`none`, Python
`None`). -/
structure H2Connection where
  hostname : String
  port_number : Nat
  proxy_hostname : Option String
  proxy_port_number : Option Nat
  raw_socket : Option Unit
  read_timeout : Nat
  last_used_stream_id : Nat
  is_connection_closed : Bool

/-- `H2Connection.__init__`: endpoint parameters stored, no socket yet,
`last_used_stream_id = 1`, `is_connection_closed = True`. -/
def H2Connection.init (hostname : String) (port_number : Nat)
    (read_timeout : Nat := 3) (proxy_hostname : Option String := none)
    (proxy_port_number : Option Nat := none) : H2Connection :=
  { hostname := hostname, port_number := port_number,
    proxy_hostname := proxy_hostname, proxy_port_number := proxy_port_number,
    raw_socket := none, read_timeout := read_timeout,
    last_used_stream_id := 1, is_connection_closed := true }

/-- `H2Connection.send_bytes` (source lines 136-148): fetch the using socket,
try `socket.send`, and catch every exception, printing it.  `sock` is the
connection's socket (`none` = Python `None`, on which `.send` raises an
`AttributeError` that the `except` swallows); `send_outcome` is the outcome the
OS gives the `send` syscall.  Returns the items that actually went out and the
error lines printed. -/
def send_bytes (sock : Option Unit) (send_outcome : Except String Unit)
    (item : SentItem) : List SentItem × List String :=
  match sock with
  | none => ([], ["# Error in sending bytes: NoneType object has no attribute send"])
  | some _ =>
    match send_outcome with
    | .ok _ => ([item], [])
    | .error e => ([], ["# Error in sending bytes: " ++ e])

/-- Message of the `AttributeError` raised by `self.raw_socket.close()` when
`raw_socket` is `None`. -/
def socketNoneCloseMsg : String := "AttributeError: NoneType object has no attribute close"

/-- `H2Connection.close_connection` (source lines 231-240): build a GOAWAY
frame with error code 0 and pass it to `send_bytes` (which swallows send
failures), then call `raw_socket.close()` — an uncaught `AttributeError` when
the socket is already `None` — and on success clear the socket and set
`is_connection_closed = True`.  Returns the post-state, the call outcome
(`.error` = uncaught exception; the state is then unchanged, since the
mutations follow the raising line), and the frames actually sent. -/
def close_connection (c : H2Connection) (send_outcome : Except String Unit) :
    H2Connection × Except String Unit × List SentItem :=
  let sent := (send_bytes c.raw_socket send_outcome (.goAwayFrame 0)).1
  match c.raw_socket with
  | none => (c, .error socketNoneCloseMsg, sent)
  | some _ => ({ c with raw_socket := none, is_connection_closed := true }, .ok (), sent)

/-- `H2Connection.send_ping_frame` (source lines 219-229): builds a PING frame
and sends it via `send_bytes`; connection state is untouched. -/
def send_ping_frame (c : H2Connection) (send_outcome : Except String Unit)
    (ping_data : String := "12345678") : List SentItem × List String :=
  send_bytes c.raw_socket send_outcome (.pingFrame ping_data)

/-- The network-level outcomes of one run of `setup_connection`: whether the
socket `connect` succeeds (the one step whose exception reaches the
`try`/`except` of `setup_connection`) and the syscall outcomes of the preface
and SETTINGS sends (both routed through the swallowing `send_bytes`). -/
structure NetEnv where
  connect_result : Except String Unit
  preface_send : Except String Unit
  settings_send : Except String Unit

/-- Result of `setup_connection`: the source's `except` branch prints the cause
and calls `exit(1)` — the process terminates — while the `else` branch flips
`is_connection_closed` to `False`. -/
inductive SetupResult where
  | exited (code : Nat) (msg : String)
  | done (c : H2Connection) (sent : List SentItem)

/-- `H2Connection.setup_connection` (source lines 52-66): create the socket
(raising on connect failure), send the 24-byte HTTP/2 preface, send the client
initial SETTINGS frame built from `DEFAULT_SETTINGS`, and only then set
`is_connection_closed = False`.  Any exception reaching the `try` prints the
cause and exits the process with code 1 — but the two sends go through
`send_bytes`, which catches every exception itself, so only the connect step
can trigger that branch. -/
def setup_connection (c : H2Connection) (env : NetEnv) : SetupResult :=
  match env.connect_result with
  | .error e => .exited 1 ("# Error in setting the connection up : " ++ e)
  | .ok _ =>
    let c1 := { c with raw_socket := some () }
    let s1 := (send_bytes c1.raw_socket env.preface_send .preface).1
    let s2 := (send_bytes c1.raw_socket env.settings_send
                 (.settingsFrame client_settings_entries)).1
    .done { c1 with is_connection_closed := false } (s1 ++ s2)

/-- The closed flag of a setup result, `none` when the process exited. -/
def setupResultFlag : SetupResult → Option Bool
  | .exited _ _ => none
  | .done c _ => some c.is_connection_closed

/-- One outcome of a `socket.recv(4096)` call inside
`read_response_from_socket`: a chunk of data (`[]` = peer closed the stream),
a `socket.timeout`, or another socket exception (which the loop does not
catch). -/
inductive RecvOutcome where
  | data (b : List Nat)
  | timedOut
  | sockErr (e : String)
deriving Repr, DecidableEq

/-- The `while True` drain loop of `read_response_from_socket` (source lines
177-187): `recv`, break on empty data or on `socket.timeout`, accumulate
`response += data`; any other exception propagates (`.error`). -/
def recv_drain_loop : List RecvOutcome → Except String (List Nat)
  | [] => .ok []
  | .timedOut :: _ => .ok []
  | .sockErr e :: _ => .error e
  | .data [] :: _ => .ok []
  | .data (b :: bs) :: rest => (recv_drain_loop rest).map (fun r => (b :: bs) ++ r)

/-- `H2Connection.read_response_from_socket` (source lines 159-207): resolve
the effective timeout (`_timeout` if given, else `self.read_timeout`), call
`settimeout` — returning `b''` at once if that raises — then run the drain
loop. -/
def read_response_from_socket (read_timeout : Nat) (t : Option Nat)
    (settimeout_fails : Bool) (outcomes : List RecvOutcome) :
    Except String (List Nat) :=
  let _timeout := t.getD read_timeout
  if settimeout_fails then .ok [] else recv_drain_loop outcomes

/-- The data chunks the drain loop accumulates, in the spec's words: everything
received before the deadline elapses or the peer closes the stream (the first
non-data or empty-data outcome). -/
def drained_chunks : List RecvOutcome → List (List Nat)
  | RecvOutcome.data (b :: bs) :: rest => (b :: bs) :: drained_chunks rest
  | _ => []

/-- One public operation on a connection, with the network outcomes it
consumes (for C9: every operation of the class that could touch connection
state). -/
inductive H2Op where
  | setupOp (env : NetEnv)
  | closeOp (send_outcome : Except String Unit)
  | pingOp (send_outcome : Except String Unit)
  | generateOp (arg : PyArg)
  | readOp (t : Option Nat) (settimeout_fails : Bool) (outcomes : List RecvOutcome)
  | sendOp (send_outcome : Except String Unit) (item : SentItem)

/-- The connection state after one operation (`none` when the operation
terminated the process, as a failed `setup_connection` does).  Operations that
raise leave behind exactly the mutations executed before the raising line. -/
def stepConn (c : H2Connection) (op : H2Op) : Option H2Connection :=
  match op with
  | .setupOp env =>
    match setup_connection c env with
    | .exited _ _ => none
    | .done c2 _ => some c2
  | .closeOp so => some (close_connection c so).1
  | .pingOp _ => some c
  | .generateOp arg =>
    some { c with last_used_stream_id := (generate_stream_ids c.last_used_stream_id arg).2 }
  | .readOp _ _ _ => some c
  | .sendOp _ _ => some c

/-- A freshly constructed connection (no I/O yet). -/
def connFresh : H2Connection := H2Connection.init "example.com" 443

/-- A connection in the `Connected` state (socket live, flag false), as after a
successful `setup_connection`. -/
def connConnected : H2Connection :=
  { connFresh with raw_socket := some (), is_connection_closed := false }

/-- A connection on which `close_connection` has already run (socket released,
flag true). -/
def connClosed : H2Connection := (close_connection connConnected (.ok ())).1

/-- A network environment where every step succeeds. -/
def envAllOk : NetEnv := ⟨.ok (), .ok (), .ok ()⟩

/-- A network environment where the socket connect fails (unreachable host). -/
def envConnectFails : NetEnv := ⟨.error "Connection refused", .ok (), .ok ()⟩

/-- A network environment where the transport opens but the preface send
fails at the socket level. -/
def envPrefaceFails : NetEnv := ⟨.ok (), .error "Broken pipe", .ok ()⟩

/-! ## Helper lemmas about the request splitter -/

theorem dataPayload_cons (fr : H2Frame) (rest : List H2Frame) :
    dataPayload (fr :: rest) =
      (if fr.ftype == "DATA" then fr.data else []) ++ dataPayload rest := by
  by_cases h : fr.ftype == "DATA" <;> simp [dataPayload, List.filter_cons, h]

theorem dataFramesOfChunks_ne_nil (sid : Nat) (c : List Nat) (cs : List (List Nat)) :
    dataFramesOfChunks sid (c :: cs) ≠ [] := by
  cases cs <;> simp [dataFramesOfChunks]

theorem modifyLast_cons_of_ne_nil (f : H2Frame → H2Frame) (a : H2Frame)
    (l : List H2Frame) (h : l ≠ []) : modifyLast f (a :: l) = a :: modifyLast f l := by
  cases l with
  | nil => exact absurd rfl h
  | cons b t => rfl

theorem lastFrameData_cons_of_ne_nil (a : H2Frame) (l : List H2Frame) (h : l ≠ []) :
    lastFrameData (a :: l) = lastFrameData l := by
  cases l with
  | nil => exact absurd rfl h
  | cons b t => rfl

theorem df_lastFrameData (sid : Nat) :
    ∀ (cs : List (List Nat)) (c : List Nat),
      lastFrameData (dataFramesOfChunks sid (c :: cs)) = (c :: cs).getLastD []
  | [], c => rfl
  | c2 :: cs2, c => by
    rw [show dataFramesOfChunks sid (c :: c2 :: cs2)
          = ⟨sid, "DATA", [], c⟩ :: dataFramesOfChunks sid (c2 :: cs2) from rfl,
        lastFrameData_cons_of_ne_nil _ _ (dataFramesOfChunks_ne_nil sid c2 cs2),
        df_lastFrameData sid cs2 c2]
    simp [List.getLastD_eq_getLast?, List.getLast?_cons_cons]

theorem df_split_payload (sid : Nat) :
    ∀ (cs : List (List Nat)) (c : List Nat),
      dataPayload (modifyLast
          (fun fr => { fr with data := fr.data.dropLast, flags := fr.flags.erase "ES" })
          (dataFramesOfChunks sid (c :: cs)))
        ++ lastByteSlice ((c :: cs).getLastD []) = (c :: cs).flatten
  | [], c => by
    simp [dataFramesOfChunks, modifyLast, dataPayload, lastByteSlice,
          List.dropLast_eq_take, List.take_append_drop]
  | c2 :: cs2, c => by
    rw [show dataFramesOfChunks sid (c :: c2 :: cs2)
          = ⟨sid, "DATA", [], c⟩ :: dataFramesOfChunks sid (c2 :: cs2) from rfl,
        modifyLast_cons_of_ne_nil _ _ _ (dataFramesOfChunks_ne_nil sid c2 cs2),
        dataPayload_cons]
    simp only [List.getLastD_eq_getLast?, List.getLast?_cons_cons, List.flatten_cons]
    have ih := df_split_payload sid cs2 c2
    simp only [List.getLastD_eq_getLast?] at ih
    simp only [show ("DATA" == "DATA") = true from rfl, if_pos, List.append_assoc, ih]
    simp [List.flatten_cons]

theorem df_es_free (sid : Nat) :
    ∀ (cs : List (List Nat)) (c : List Nat),
      ∀ fr ∈ modifyLast
          (fun fr => { fr with data := fr.data.dropLast, flags := fr.flags.erase "ES" })
          (dataFramesOfChunks sid (c :: cs)), "ES" ∉ fr.flags
  | [], c => by
    simp [dataFramesOfChunks, modifyLast]
  | c2 :: cs2, c => by
    rw [show dataFramesOfChunks sid (c :: c2 :: cs2)
          = ⟨sid, "DATA", [], c⟩ :: dataFramesOfChunks sid (c2 :: cs2) from rfl,
        modifyLast_cons_of_ne_nil _ _ _ (dataFramesOfChunks_ne_nil sid c2 cs2)]
    intro fr hfr
    rcases List.mem_cons.mp hfr with h | h
    · subst h; simp
    · exact df_es_free sid cs2 c2 fr h

/-! ## Claim theorems -/

/-- C1: for every request with a body of length at least 1, concatenating the
DATA payload of the bulk frame group with the single byte carried by the
trigger frame reproduces the original body exactly, the trigger payload is one
byte, and the end-of-stream marker is held by the trigger frame alone — no
bulk frame carries it. -/
theorem split_reassembles_body (sid : Nat) (hp : List Nat) (chunks : List (List Nat))
    (lc : List Nat) (hlast : chunks.getLast? = some lc) (hne : lc ≠ []) :
    dataPayload (create_single_packet_http2_request_frames sid hp (some chunks)).1
        ++ (create_single_packet_http2_request_frames sid hp (some chunks)).2.data
      = chunks.flatten
    ∧ (create_single_packet_http2_request_frames sid hp (some chunks)).2.data.length = 1
    ∧ (∀ fr ∈ (create_single_packet_http2_request_frames sid hp (some chunks)).1,
        "ES" ∉ fr.flags)
    ∧ "ES" ∈ (create_single_packet_http2_request_frames sid hp (some chunks)).2.flags := by
  obtain ⟨c, cs, rfl⟩ : ∃ c cs, chunks = c :: cs := by
    cases chunks with
    | nil => simp at hlast
    | cons c cs => exact ⟨c, cs, rfl⟩
  have hdf := dataFramesOfChunks_ne_nil sid c cs
  have hfst : (create_single_packet_http2_request_frames sid hp (some (c :: cs))).1
      = (⟨sid, "HEADERS", ["EH"], hp⟩ : H2Frame) :: modifyLast
          (fun fr => { fr with data := fr.data.dropLast, flags := fr.flags.erase "ES" })
          (dataFramesOfChunks sid (c :: cs)) := by
    simp only [create_single_packet_http2_request_frames, create_headers_frame]
    rw [modifyLast_cons_of_ne_nil _ _ _ hdf]
  have hsndData : (create_single_packet_http2_request_frames sid hp (some (c :: cs))).2.data
      = lastByteSlice ((c :: cs).getLastD []) := by
    simp only [create_single_packet_http2_request_frames, create_headers_frame]
    rw [lastFrameData_cons_of_ne_nil _ _ hdf, df_lastFrameData sid cs c]
  have hlc : (c :: cs).getLastD [] = lc := by
    rw [List.getLastD_eq_getLast?, hlast]; rfl
  refine ⟨?_, ?_, ?_, ?_⟩
  · rw [hfst, hsndData, dataPayload_cons]
    simp only [show (("HEADERS" : String) == "DATA") = false from rfl, if_neg,
      Bool.false_eq_true, not_false_eq_true, List.nil_append]
    exact df_split_payload sid cs c
  · rw [hsndData, hlc, lastByteSlice, List.length_drop]
    have : 0 < lc.length := List.length_pos.mpr hne
    omega
  · rw [hfst]
    intro fr hfr
    rcases List.mem_cons.mp hfr with h | h
    · subst h; simp
    · exact df_es_free sid cs c fr h
  · simp only [create_single_packet_http2_request_frames, create_headers_frame]
    simp

/-- C1 witness: the splitting property evaluated on a concrete request with
body chunks [[10, 20], [30, 40]] on stream 5. -/
theorem split_reassembles_body_witness :
    dataPayload (create_single_packet_http2_request_frames 5 [1] (some [[10, 20], [30, 40]])).1
        ++ (create_single_packet_http2_request_frames 5 [1] (some [[10, 20], [30, 40]])).2.data
      = [[10, 20], [30, 40]].flatten
    ∧ (create_single_packet_http2_request_frames 5 [1] (some [[10, 20], [30, 40]])).2.data.length = 1
    ∧ (∀ fr ∈ (create_single_packet_http2_request_frames 5 [1] (some [[10, 20], [30, 40]])).1,
        "ES" ∉ fr.flags)
    ∧ "ES" ∈ (create_single_packet_http2_request_frames 5 [1] (some [[10, 20], [30, 40]])).2.flags :=
  split_reassembles_body 5 [1] [[10, 20], [30, 40]] [30, 40] (by decide) (by decide)

/-- C2: for a request with no body, the trigger frame is a distinct frame on
the same stream id, carries zero payload bytes and holds the end-of-stream
marker exclusively, while the bulk group is the HEADERS frame with the
end-of-stream marker removed (end-of-headers kept). -/
theorem split_bodyless_trigger (sid : Nat) (hp : List Nat) :
    (create_single_packet_http2_request_frames sid hp none).2.stream_id = sid
    ∧ (create_single_packet_http2_request_frames sid hp none).2.data = []
    ∧ "ES" ∈ (create_single_packet_http2_request_frames sid hp none).2.flags
    ∧ (create_single_packet_http2_request_frames sid hp none).1
        = [⟨sid, "HEADERS", ["EH"], hp⟩]
    ∧ (∀ fr ∈ (create_single_packet_http2_request_frames sid hp none).1, "ES" ∉ fr.flags)
    ∧ (create_single_packet_http2_request_frames sid hp none).2
        ∉ (create_single_packet_http2_request_frames sid hp none).1 := by
  refine ⟨rfl, rfl, by simp [create_single_packet_http2_request_frames], ?_, ?_, ?_⟩
  · simp [create_single_packet_http2_request_frames, create_headers_frame, modifyLast]
  · intro fr hfr
    simp [create_single_packet_http2_request_frames, create_headers_frame, modifyLast] at hfr
    subst hfr
    simp
  · simp [create_single_packet_http2_request_frames, create_headers_frame, modifyLast]

/-! ## Helper lemmas about the stream-id allocator -/

theorem getLast?_range'_two : ∀ (k s : Nat),
    (List.range' s (k + 1) 2).getLast? = some (s + 2 * k)
  | 0, s => by simp
  | k + 1, s => by
    rw [List.range'_succ, List.range'_succ, List.getLast?_cons_cons,
        ← List.range'_succ, getLast?_range'_two k (s + 2)]
    exact congrArg some (by omega)

theorem generate_eval (lu : Nat) (n : Int) (hn : 0 < n) :
    generate_stream_ids lu (.int n) =
      (.ok (List.range' ((if lu % 2 == 0 then lu + 1 else lu) + 2) n.toNat 2),
       (if lu % 2 == 0 then lu + 1 else lu) + 2 + 2 * (n.toNat - 1)) := by
  obtain ⟨k, hk⟩ : ∃ k : Nat, n.toNat = k + 1 := ⟨n.toNat - 1, by omega⟩
  simp only [generate_stream_ids, pyRangeStep2]
  rw [if_neg (by omega)]
  rw [if_neg (by omega)]
  have harith : (n.toNat * 2 + ((if lu % 2 == 0 then lu + 1 else lu) + 2)
      - ((if lu % 2 == 0 then lu + 1 else lu) + 2) + 1) / 2 = n.toNat := by omega
  rw [harith, hk, getLast?_range'_two]
  rfl

theorem generate_ok_spec {lu : Nat} {n : Int} {ids : List Nat} {lu2 : Nat}
    (h : generate_stream_ids lu (.int n) = (.ok ids, lu2)) :
    0 < n ∧ ids.length = n.toNat ∧ ids.Pairwise (· < ·)
    ∧ (∀ i ∈ ids, i % 2 = 1 ∧ lu < i ∧ i ≤ lu2)
    ∧ ids.getLast? = some lu2 ∧ lu < lu2 := by
  have hn : 0 < n := by
    by_contra hle
    rw [show generate_stream_ids lu (.int n) = (.error invalidCountMsg, lu) from by
      simp only [generate_stream_ids]; rw [if_pos (by omega)]] at h
    exact Except.noConfusion (congrArg Prod.fst h)
  rw [generate_eval lu n hn] at h
  have h1 : Except.ok (List.range' ((if lu % 2 == 0 then lu + 1 else lu) + 2) n.toNat 2)
      = Except.ok ids := congrArg Prod.fst h
  have h2 : (if lu % 2 == 0 then lu + 1 else lu) + 2 + 2 * (n.toNat - 1) = lu2 :=
    congrArg Prod.snd h
  have hids : ids = List.range' ((if lu % 2 == 0 then lu + 1 else lu) + 2) n.toNat 2 :=
    (Except.ok.inj h1).symm
  have hlu2 : lu2 = (if lu % 2 == 0 then lu + 1 else lu) + 2 + 2 * (n.toNat - 1) := h2.symm
  have hlu1 : lu ≤ (if lu % 2 == 0 then lu + 1 else lu)
      ∧ ((if lu % 2 == 0 then lu + 1 else lu)) % 2 = 1 := by
    by_cases he : lu % 2 == 0
    · rw [if_pos he]
      have : lu % 2 = 0 := by simpa using he
      omega
    · rw [if_neg he]
      have : ¬ lu % 2 = 0 := fun hc => he (by simp [hc])
      omega
  subst hids hlu2
  refine ⟨hn, List.length_range' .., List.pairwise_lt_range' _ _ 2 (by omega), ?_, ?_, by omega⟩
  · intro i hi
    obtain ⟨j, hj, rfl⟩ := List.mem_range'.mp hi
    refine ⟨by omega, by omega, by omega⟩
  · obtain ⟨k, hk⟩ : ∃ k : Nat, n.toNat = k + 1 := ⟨n.toNat - 1, by omega⟩
    rw [hk, getLast?_range'_two]
    exact congrArg some (by omega)

/-- C3: a successful `generate_stream_ids(n)` call returns exactly `n` strictly
increasing odd stream identifiers, all greater than `last_used_stream_id`
before the call; afterwards `last_used_stream_id` equals the maximum returned
identifier, and no returned identifier is ever returned again by a later call
on the same connection (whose `last_used_stream_id` only grows in between). -/
theorem generate_stream_ids_spec (lu : Nat) (n : Int) (ids : List Nat) (lu2 : Nat)
    (h : generate_stream_ids lu (.int n) = (.ok ids, lu2)) :
    ids.length = n.toNat ∧ ids.Pairwise (· < ·)
    ∧ (∀ i ∈ ids, i % 2 = 1 ∧ lu < i ∧ i ≤ lu2)
    ∧ ids.getLast? = some lu2
    ∧ (∀ lu3 m ids2 lu4, lu2 ≤ lu3 →
        generate_stream_ids lu3 (.int m) = (.ok ids2, lu4) → ∀ i ∈ ids, i ∉ ids2) := by
  obtain ⟨-, hlen, hsort, hmem, hlast, -⟩ := generate_ok_spec h
  refine ⟨hlen, hsort, hmem, hlast, ?_⟩
  intro lu3 m ids2 lu4 hle h2 i hi hi2
  obtain ⟨-, -, -, hmem2, -, -⟩ := generate_ok_spec h2
  have hub := (hmem i hi).2.2
  have hlb := (hmem2 i hi2).2.1
  omega

/-- C3 witness: the specification evaluated on the concrete call
`generate_stream_ids` from `last_used_stream_id = 1` with `n = 3`, which
returns `[3, 5, 7]` and sets `last_used_stream_id` to 7. -/
theorem generate_stream_ids_spec_witness :
    [3, 5, 7].length = (3 : Int).toNat ∧ [3, 5, 7].Pairwise (· < ·)
    ∧ (∀ i ∈ [3, 5, 7], i % 2 = 1 ∧ 1 < i ∧ i ≤ 7)
    ∧ [3, 5, 7].getLast? = some 7
    ∧ (∀ lu3 m ids2 lu4, 7 ≤ lu3 →
        generate_stream_ids lu3 (.int m) = (.ok ids2, lu4) → ∀ i ∈ [3, 5, 7], i ∉ ids2) :=
  generate_stream_ids_spec 1 3 [3, 5, 7] 7 rfl

/-- C8: calling `generate_stream_ids` with 0, -1 (or any non-positive integer)
or a non-integer argument fails synchronously with the `ValueError`
"number_of_streams must be a positive integer" — the source performs no I/O in
this function — and leaves `last_used_stream_id` unchanged. -/
theorem generate_stream_ids_rejects_bad_args (lu : Nat) :
    generate_stream_ids lu (.int 0) = (.error invalidCountMsg, lu)
    ∧ generate_stream_ids lu (.int (-1)) = (.error invalidCountMsg, lu)
    ∧ (∀ n : Int, n ≤ 0 → generate_stream_ids lu (.int n) = (.error invalidCountMsg, lu))
    ∧ generate_stream_ids lu .nonInt = (.error invalidCountMsg, lu) := by
  have hgen : ∀ n : Int, n ≤ 0 → generate_stream_ids lu (.int n) = (.error invalidCountMsg, lu) := by
    intro n hn
    simp only [generate_stream_ids]
    rw [if_pos hn]
  exact ⟨hgen 0 (by omega), hgen (-1) (by omega), hgen, rfl⟩

/-- C8 witness: the rejection evaluated at `last_used_stream_id = 9`, including
the inner universally quantified part at `n = -5`. -/
theorem generate_stream_ids_rejects_bad_args_witness :
    generate_stream_ids 9 (.int (-5)) = (.error invalidCountMsg, 9) :=
  (generate_stream_ids_rejects_bad_args 9).2.2.1 (-5) (by omega)

/-- C10: once the positive-integer argument check passes, the computed range is
non-degenerate, so `generate_stream_ids` never raises the "problem with the
stream_id range" `ValueError`: the call succeeds outright. -/
theorem range_error_unreachable (lu : Nat) (n : Int) (hn : 0 < n) :
    (generate_stream_ids lu (.int n)).1 ≠ .error rangeProblemMsg
    ∧ ∃ ids, (generate_stream_ids lu (.int n)).1 = .ok ids := by
  rw [generate_eval lu n hn]
  exact ⟨fun hc => Except.noConfusion hc, _, rfl⟩

/-- C10 witness: the concrete call with `last_used_stream_id = 2`, `n = 1`
succeeds and does not raise the range error. -/
theorem range_error_unreachable_witness :
    (generate_stream_ids 2 (.int 1)).1 ≠ .error rangeProblemMsg
    ∧ ∃ ids, (generate_stream_ids 2 (.int 1)).1 = .ok ids :=
  range_error_unreachable 2 1 (by omega)

/-- C6: the outbound initial SETTINGS frame lists exactly the default-table
entries whose value is present — header table size 4096, push 0, max
concurrent streams 100, initial window size 65535, max frame size 16384 — in
declaration order, and every absent-valued entry (max header list size, id 6)
is omitted: an id of the table is transmitted iff its value is present. -/
theorem client_settings_entries_exact :
    client_settings_entries = [(1, 4096), (2, 0), (3, 100), (4, 65535), (5, 16384)]
    ∧ (DEFAULT_SETTINGS.all fun e =>
        ((client_settings_entries.map Prod.fst).contains e.2.1) == e.2.2.isSome) = true :=
  ⟨rfl, rfl⟩

/-- Helper for C7: an error-free outcome stream makes the drain loop return
the concatenation of everything received before the first timeout or
peer-close. -/
theorem recv_drain_loop_ok (outs : List RecvOutcome)
    (h : ∀ e, RecvOutcome.sockErr e ∉ outs) :
    recv_drain_loop outs = .ok (drained_chunks outs).flatten := by
  induction outs with
  | nil => rfl
  | cons o rest ih =>
    cases o with
    | data b =>
      cases b with
      | nil => rfl
      | cons x xs =>
        rw [show recv_drain_loop (.data (x :: xs) :: rest)
              = (recv_drain_loop rest).map (fun r => (x :: xs) ++ r) from rfl,
            ih (fun e he => h e (List.mem_cons_of_mem _ he))]
        rfl
    | timedOut => rfl
    | sockErr e => exact absurd (List.mem_cons_self _ _) (h e)

/-- C7: for every timeout value, `read_response_from_socket` treats a timeout
(and a peer close) as end of data, never as an error: as long as the socket
produces only data, closes and timeouts, the call returns `.ok` with the
concatenation of everything received before the first timeout or close —
possibly the empty buffer, also when even `settimeout` itself failed. -/
theorem read_response_never_errors (read_timeout : Nat) (t : Option Nat)
    (settimeout_fails : Bool) (outcomes : List RecvOutcome)
    (h : ∀ e, RecvOutcome.sockErr e ∉ outcomes) :
    read_response_from_socket read_timeout t settimeout_fails outcomes
      = .ok (if settimeout_fails then [] else (drained_chunks outcomes).flatten) := by
  by_cases hs : settimeout_fails <;>
    simp [read_response_from_socket, hs, recv_drain_loop_ok outcomes h]

/-- C7 witness: a read over a socket that yields [1, 2] and then times out
returns the buffer [1, 2], not an error. -/
theorem read_response_never_errors_witness :
    read_response_from_socket 3 (some 1) false [.data [1, 2], .timedOut]
      = .ok (if false then [] else (drained_chunks [.data [1, 2], .timedOut]).flatten) :=
  read_response_never_errors 3 (some 1) false [.data [1, 2], .timedOut]
    (by intro e; simp)

/-- C4 counterexample: on a connection that has already been closed, a second
`close_connection` does not complete as an "already closed" no-op — it raises
an `AttributeError` (`raw_socket` is `None` and the source calls
`self.raw_socket.close()` unconditionally). -/
theorem close_twice_counterexample :
    (close_connection connClosed (.ok ())).2.1 = .error socketNoneCloseMsg
    ∧ (close_connection connClosed (.ok ())).2.1 ≠ .ok () := by
  refine ⟨rfl, ?_⟩
  intro hc
  rw [show (close_connection connClosed (.ok ())).2.1 = .error socketNoneCloseMsg from rfl] at hc
  exact Except.noConfusion hc

/-- C4 amended: the first `close_connection` on a Connected instance sends
exactly one GOAWAY frame with error code 0, releases the socket and sets the
closed flag; a second call sends no further frames (the GOAWAY send attempt
against the released socket fails inside `send_bytes` and is swallowed) but
does not report "already closed" as a no-op: it raises an `AttributeError`
because the socket attribute is `None`. -/
theorem close_behavior_amended (c : H2Connection) (h : c.raw_socket = some ()) :
    (close_connection c (.ok ())).2.2 = [SentItem.goAwayFrame 0]
    ∧ (close_connection c (.ok ())).2.1 = .ok ()
    ∧ (close_connection c (.ok ())).1.is_connection_closed = true
    ∧ (close_connection c (.ok ())).1.raw_socket = none
    ∧ ∀ so, (close_connection (close_connection c (.ok ())).1 so).2.2 = []
        ∧ (close_connection (close_connection c (.ok ())).1 so).2.1
            = .error socketNoneCloseMsg := by
  simp [close_connection, send_bytes, h]

/-- C4 witness: the amended close behavior evaluated on a concrete Connected
instance. -/
theorem close_behavior_amended_witness :
    (close_connection connConnected (.ok ())).2.2 = [SentItem.goAwayFrame 0]
    ∧ (close_connection connConnected (.ok ())).2.1 = .ok ()
    ∧ (close_connection connConnected (.ok ())).1.is_connection_closed = true
    ∧ (close_connection connConnected (.ok ())).1.raw_socket = none
    ∧ ∀ so, (close_connection (close_connection connConnected (.ok ())).1 so).2.2 = []
        ∧ (close_connection (close_connection connConnected (.ok ())).1 so).2.1
            = .error socketNoneCloseMsg :=
  close_behavior_amended connConnected rfl

/-- C5 counterexample: with the transport reachable but the preface send
failing at the socket level, `setup_connection` still transitions the
connection to Connected — the closed flag is flipped to false — because
`send_bytes` swallows the failure; the claimed all-or-nothing abort does not
happen. -/
theorem setup_send_failure_counterexample :
    setupResultFlag (setup_connection connFresh envPrefaceFails) = some false
    ∧ setup_connection connFresh envPrefaceFails
        = .done { connFresh with raw_socket := some (), is_connection_closed := false }
            [SentItem.settingsFrame client_settings_entries] :=
  ⟨rfl, rfl⟩

/-- C5 amended: only a failure of the first handshake step (opening the
transport) aborts `setup_connection`, and it does so by printing the
underlying cause and terminating the process with exit code 1, exposing no
connected state; failures of the preface or SETTINGS sends are swallowed by
`send_bytes`, and setup then still flips the closed flag to false. -/
theorem setup_behavior_amended (c : H2Connection) (env : NetEnv) :
    (∀ e, env.connect_result = .error e →
        setup_connection c env = .exited 1 ("# Error in setting the connection up : " ++ e))
    ∧ (env.connect_result = .ok () →
        ∃ sent, setup_connection c env
          = .done { c with raw_socket := some (), is_connection_closed := false } sent) := by
  constructor
  · intro e he
    simp [setup_connection, he]
  · intro hok
    refine ⟨(send_bytes (some ()) env.preface_send SentItem.preface).1 ++
        (send_bytes (some ()) env.settings_send
          (SentItem.settingsFrame client_settings_entries)).1, ?_⟩
    simp [setup_connection, hok]

/-- C5 witness: setup against an unreachable host exits the process with the
cause reported. -/
theorem setup_behavior_amended_witness :
    setup_connection connFresh envConnectFails
      = .exited 1 ("# Error in setting the connection up : " ++ "Connection refused") :=
  (setup_behavior_amended connFresh envConnectFails).1 "Connection refused" rfl

/-- C9 counterexample: once teardown runs the closed flag is true, not false —
`close_connection` on a Connected instance sets `is_connection_closed = True`. -/
theorem closed_flag_after_teardown_counterexample :
    ¬ ((close_connection connConnected (.ok ())).1.is_connection_closed = false) := by
  rw [show (close_connection connConnected (.ok ())).1.is_connection_closed = true from rfl]
  simp

/-- C9 amended: the closed flag is true from construction until the handshake
succeeds, and true again (not false) once teardown runs; across every
operation, only setup (on success, setting it to false) and close (on a live
socket, setting it to true) change the flag. -/
theorem closed_flag_transitions_amended :
    (∀ hostname port_number read_timeout proxy_hostname proxy_port_number,
        (H2Connection.init hostname port_number read_timeout proxy_hostname
            proxy_port_number).is_connection_closed = true)
    ∧ (∀ c op c2, stepConn c op = some c2 →
        c2.is_connection_closed =
          match op with
          | .setupOp _ => false
          | .closeOp _ => if c.raw_socket.isSome then true else c.is_connection_closed
          | _ => c.is_connection_closed) := by
  constructor
  · intro _ _ _ _ _
    rfl
  · intro c op c2 h
    cases op with
    | setupOp env =>
      cases henv : env.connect_result with
      | error e => simp [stepConn, setup_connection, henv] at h
      | ok u =>
        simp [stepConn, setup_connection, henv] at h
        rw [← h]
    | closeOp so =>
      cases hs : c.raw_socket with
      | none =>
        simp [stepConn, close_connection, send_bytes, hs] at h
        subst h
        simp
      | some u =>
        simp [stepConn, close_connection, send_bytes, hs] at h
        subst h
        simp
    | pingOp so =>
      simp [stepConn] at h
      rw [← h]
    | generateOp arg =>
      simp [stepConn] at h
      rw [← h]
    | readOp t sf outs =>
      simp [stepConn] at h
      rw [← h]
    | sendOp so item =>
      simp [stepConn] at h
      rw [← h]

/-- C9 witness: closing a concrete Connected instance flips the flag to
true. -/
theorem closed_flag_transitions_amended_witness :
    ((close_connection connConnected (.ok ())).1).is_connection_closed = true :=
  closed_flag_transitions_amended.2 connConnected (.closeOp (.ok ()))
    ((close_connection connConnected (.ok ())).1) rfl

end H2SpaceX
